import Mathlib

/-
Verification of the todo application's request handlers
(src/todos/views.py, src/todos/models.py) against its specification.

The embedding is shallow: the Django ORM is modelled as a `Store` holding a
list of `Todo` records together with an id counter and a logical clock used
for the `auto_now_add` / `auto_now` timestamps.  Each view function of
views.py becomes a pure Lean function from a request and a store to a
response, a list of flash notices and an updated store.
-/

namespace TodoApp

/-- Python `str.strip()`: remove leading and trailing whitespace characters. -/
def pyStrip (s : String) : String :=
  ⟨((s.data.dropWhile Char.isWhitespace).reverse.dropWhile Char.isWhitespace).reverse⟩

/-- HTTP request method, as tested by `request.method == 'POST'`. -/
inductive Method
  | get
  | post
deriving DecidableEq, Repr

/-- An HTTP request: its method and the POST form data (`request.POST`). -/
structure Req where
  method : Method
  form : List (String × String)
deriving DecidableEq, Repr

/-- Lookup of a form field, `request.POST.get(key)`: first pair with the key. -/
def formGet? (form : List (String × String)) (k : String) : Option String :=
  (form.find? (fun p => p.1 = k)).map (fun p => p.2)

/-- Python `request.POST.get(key)` (returns `None` when absent). -/
def Req.postGet? (r : Req) (k : String) : Option String :=
  formGet? r.form k

/-- Python `request.POST.get(key, default)`. -/
def Req.postGetD (r : Req) (k d : String) : String :=
  (r.postGet? k).getD d

/-- The `Todo` model of models.py: title, completed flag and two timestamps
(`created_at` with `auto_now_add`, `updated_at` with `auto_now`), plus the
primary key assigned by the database. -/
structure Todo where
  id : Nat
  title : String
  completed : Bool
  created_at : Nat
  updated_at : Nat
deriving DecidableEq, Repr

/-- The database table of todos, with the next primary key to assign and a
logical clock supplying the auto timestamps. -/
structure Store where
  todos : List Todo
  nextId : Nat
  now : Nat
deriving DecidableEq, Repr

/-- A fresh database. -/
def Store.empty : Store := ⟨[], 1, 0⟩

/-- `Todo.objects.create(title=title)`: inserts a row with `completed` at its
default `False` and both timestamps set to the current instant. -/
def Store.createTodo (s : Store) (title : String) : Store × Todo :=
  let t : Todo := ⟨s.nextId, title, false, s.now, s.now⟩
  (⟨s.todos ++ [t], s.nextId + 1, s.now + 1⟩, t)

/-- Fetch by primary key, as used by `get_object_or_404(Todo, pk=pk)`. -/
def Store.findById (s : Store) (pk : Nat) : Option Todo :=
  s.todos.find? (fun t => t.id = pk)

/-- `todo.save()`: write the row with this primary key back, refreshing
`updated_at` (`auto_now`). -/
def Store.saveTodo (s : Store) (t : Todo) : Store :=
  ⟨s.todos.map (fun u => if u.id = t.id then { t with updated_at := s.now } else u),
   s.nextId, s.now + 1⟩

/-- `todo.delete()`: remove the row with this primary key. -/
def Store.deleteTodo (s : Store) (pk : Nat) : Store :=
  ⟨s.todos.filter (fun t => t.id ≠ pk), s.nextId, s.now⟩

/-- Insertion step realising the model Meta `ordering = ['-created_at']`. -/
def insertByCreatedDesc (t : Todo) : List Todo → List Todo
  | [] => [t]
  | u :: us =>
      if u.created_at ≤ t.created_at then t :: u :: us
      else u :: insertByCreatedDesc t us

/-- Rows ordered by `created_at` descending, newest first. -/
def sortByCreatedDesc (l : List Todo) : List Todo :=
  l.foldr insertByCreatedDesc []

/-- `Todo.objects.all()`: every row, in the model's default ordering. -/
def Store.objectsAll (s : Store) : List Todo :=
  sortByCreatedDesc s.todos

/-- A flash notice queued through `django.contrib.messages`. -/
inductive Notice
  | success (msg : String)
  | error (msg : String)
deriving DecidableEq, Repr

/-- The outcome a view returns to the framework. -/
inductive Resp
  | redirect (target : String)
  | renderList (todos : List Todo)
  | renderForm (formTitle : String) (todo : Option Todo)
  | renderConfirmDelete (todo : Todo)
  | notFound
deriving DecidableEq, Repr

/-- HTTP status code of each outcome: renders are 200, a redirect is 302 and
`get_object_or_404` surfaces 404. -/
def Resp.status : Resp → Nat
  | .redirect _ => 302
  | .notFound => 404
  | _ => 200

/-- Result of one handler invocation: response, notices queued during it, and
the store afterwards. -/
structure HOut where
  resp : Resp
  notices : List Notice
  store : Store
deriving DecidableEq, Repr

/-- views.py `todo_list`: display all todos. -/
def todo_list (_r : Req) (s : Store) : HOut :=
  ⟨.renderList s.objectsAll, [], s⟩

/-- views.py `todo_create`: create a new todo item. -/
def todo_create (r : Req) (s : Store) : HOut :=
  if r.method = .post then
    let title := pyStrip (r.postGetD "title" "")
    if title ≠ "" then
      ⟨.redirect "todos:todo_list", [.success "Todo created successfully!"],
       (s.createTodo title).1⟩
    else
      ⟨.renderForm "Create Todo" none, [.error "Title cannot be empty!"], s⟩
  else
    ⟨.renderForm "Create Todo" none, [], s⟩

/-- views.py `todo_update`: update an existing todo item. -/
def todo_update (r : Req) (pk : Nat) (s : Store) : HOut :=
  match s.findById pk with
  | none => ⟨.notFound, [], s⟩
  | some todo =>
    if r.method = .post then
      let title := pyStrip (r.postGetD "title" "")
      let completed := r.postGet? "completed" == some "on"
      if title ≠ "" then
        ⟨.redirect "todos:todo_list", [.success "Todo updated successfully!"],
         s.saveTodo { todo with title := title, completed := completed }⟩
      else
        ⟨.renderForm "Edit Todo" (some todo), [.error "Title cannot be empty!"], s⟩
    else
      ⟨.renderForm "Edit Todo" (some todo), [], s⟩

/-- views.py `todo_delete`: delete a todo item. -/
def todo_delete (r : Req) (pk : Nat) (s : Store) : HOut :=
  match s.findById pk with
  | none => ⟨.notFound, [], s⟩
  | some todo =>
    if r.method = .post then
      ⟨.redirect "todos:todo_list", [.success "Todo deleted successfully!"],
       s.deleteTodo pk⟩
    else
      ⟨.renderConfirmDelete todo, [], s⟩

/-- Message built by `todo_toggle`, depending on the resulting state. -/
def toggleMsg (b : Bool) : String :=
  "Todo marked as " ++ (if b then "completed" else "incomplete") ++ "!"

/-- views.py `todo_toggle`: toggle the completed status of a todo. -/
def todo_toggle (_r : Req) (pk : Nat) (s : Store) : HOut :=
  match s.findById pk with
  | none => ⟨.notFound, [], s⟩
  | some todo =>
    let t := { todo with completed := !todo.completed }
    ⟨.redirect "todos:todo_list", [.success (toggleMsg t.completed)], s.saveTodo t⟩

/-- Substring containment on strings, for claims about notice wording. -/
def strContains (s sub : String) : Bool :=
  s.data.tails.any (fun t => sub.data.isPrefixOf t)

/-- A title that is neither the empty string nor whitespace-only. -/
def validTitle (x : String) : Prop :=
  x ≠ "" ∧ ¬ (∀ c ∈ x.data, c.isWhitespace = true)

/-- Every stored row satisfies the title invariant. -/
def Store.titlesOK (s : Store) : Prop :=
  ∀ t ∈ s.todos, validTitle t.title

instance (x : String) : Decidable (validTitle x) := by
  unfold validTitle; infer_instance

instance (s : Store) : Decidable s.titlesOK := by
  unfold Store.titlesOK; infer_instance

/-- The character surviving at the front of a `dropWhile` fails the test. -/
theorem dropWhile_head_not (p : Char → Bool) (l : List Char) :
    ∀ (a : Char) (as : List Char), l.dropWhile p = a :: as → p a = false := by
  induction l with
  | nil => intro a as h; simp [List.dropWhile] at h
  | cons b bs ih =>
    intro a as h
    by_cases hb : p b = true
    · rw [List.dropWhile_cons, if_pos hb] at h
      exact ih a as h
    · rw [List.dropWhile_cons, if_neg hb] at h
      injection h with h1 _
      subst h1
      simpa using hb

/-- A non-empty stripped string contains a non-whitespace character, hence is
a valid title. -/
theorem validTitle_pyStrip (raw : String) (h : pyStrip raw ≠ "") :
    validTitle (pyStrip raw) := by
  refine ⟨h, ?_⟩
  intro hall
  obtain ⟨a, as, hcons⟩ :
      ∃ a as, (raw.data.dropWhile Char.isWhitespace).reverse.dropWhile
          Char.isWhitespace = a :: as := by
    cases hL : (raw.data.dropWhile Char.isWhitespace).reverse.dropWhile
        Char.isWhitespace with
    | nil =>
      exfalso
      apply h
      apply String.ext
      show ((raw.data.dropWhile Char.isWhitespace).reverse.dropWhile
          Char.isWhitespace).reverse = ("" : String).data
      rw [hL]
      rfl
    | cons a as => exact ⟨a, as, rfl⟩
  have hpa : Char.isWhitespace a = false := dropWhile_head_not _ _ a as hcons
  have hmem : a ∈ (pyStrip raw).data := by
    show a ∈ ((raw.data.dropWhile Char.isWhitespace).reverse.dropWhile
        Char.isWhitespace).reverse
    rw [hcons]
    simp
  have hmust := hall a hmem
  rw [hpa] at hmust
  exact Bool.false_ne_true hmust

/-- Saving a record whose id was found leaves it findable, with `updated_at`
refreshed and every other field as written. -/
theorem find?_map_save (l : List Todo) (pk n : Nat) (u : Todo) (hid : u.id = pk)
    (h : (l.find? (fun t => t.id = pk)).isSome = true) :
    (l.map (fun v => if v.id = u.id then { u with updated_at := n } else v)).find?
      (fun t => t.id = pk) = some { u with updated_at := n } := by
  induction l with
  | nil => simp [List.find?] at h
  | cons b bs ih =>
    by_cases hb : b.id = pk
    · have hbu : b.id = u.id := by rw [hb, hid]
      simp [List.find?_cons, hbu, hid]
    · have hbu : ¬ b.id = u.id := by rw [hid]; exact hb
      simp only [List.map_cons, List.find?_cons, if_neg hbu, decide_eq_false hb] at h ⊢
      exact ih h

/-- Store-level version of `find?_map_save`. -/
theorem findById_saveTodo (s : Store) (pk : Nat) (u : Todo) (hid : u.id = pk)
    (h : (s.findById pk).isSome = true) :
    (s.saveTodo u).findById pk = some { u with updated_at := s.now } :=
  find?_map_save s.todos pk s.now u hid h

/-- Membership through the ordering insertion step. -/
theorem mem_insertByCreatedDesc (t a : Todo) (l : List Todo) :
    a ∈ insertByCreatedDesc t l ↔ a = t ∨ a ∈ l := by
  induction l with
  | nil => simp [insertByCreatedDesc]
  | cons u us ih =>
    by_cases hcmp : u.created_at ≤ t.created_at
    · simp [insertByCreatedDesc, hcmp]
    · simp only [insertByCreatedDesc, if_neg hcmp, List.mem_cons, ih]
      tauto

/-- The default ordering is a permutation: membership is unchanged. -/
theorem mem_sortByCreatedDesc (a : Todo) (l : List Todo) :
    a ∈ sortByCreatedDesc l ↔ a ∈ l := by
  induction l with
  | nil => simp [sortByCreatedDesc]
  | cons u us ih =>
    show a ∈ insertByCreatedDesc u (sortByCreatedDesc us) ↔ _
    rw [mem_insertByCreatedDesc, ih, List.mem_cons]

/-- With distinct primary keys, any row matching the found key is the found
row. -/
theorem find?_eq_of_nodup (l : List Todo) (pk : Nat) (t : Todo)
    (hnd : (l.map Todo.id).Nodup)
    (hf : l.find? (fun x => x.id = pk) = some t) :
    ∀ u ∈ l, u.id = pk → u = t := by
  induction l with
  | nil => simp [List.find?] at hf
  | cons b bs ih =>
    intro u hu hup
    rw [List.map_cons, List.nodup_cons] at hnd
    by_cases hb : b.id = pk
    · have ht : b = t := by
        simpa [List.find?_cons, decide_eq_true hb] using hf
      rcases List.mem_cons.mp hu with h1 | h1
      · rw [h1, ht]
      · exfalso
        apply hnd.1
        have hin : u.id ∈ List.map Todo.id bs := List.mem_map_of_mem Todo.id h1
        rwa [hup, ← hb] at hin
    · simp only [List.find?_cons, decide_eq_false hb] at hf
      rcases List.mem_cons.mp hu with h1 | h1
      · exact absurd (h1 ▸ hup) hb
      · exact ih hnd.2 hf u h1 hup

/-- Claim C1: a Create POST whose title is non-empty after stripping inserts
exactly one new record, carrying the stripped title and `completed = false`;
a success notice whose text contains "created successfully" is queued, the
response redirects to the list view, and a subsequent List renders the rows in
default order with the new record among them. -/
theorem create_inserts (s : Store) (r : Req)
    (hm : r.method = .post)
    (h : pyStrip (r.postGetD "title" "") ≠ "") :
    (todo_create r s).store.todos
        = s.todos ++ [⟨s.nextId, pyStrip (r.postGetD "title" ""), false, s.now, s.now⟩] ∧
    (todo_create r s).resp = .redirect "todos:todo_list" ∧
    (todo_create r s).notices = [.success "Todo created successfully!"] ∧
    strContains "Todo created successfully!" "created successfully" = true ∧
    (todo_list r (todo_create r s).store).resp
        = .renderList ((todo_create r s).store.objectsAll) ∧
    (⟨s.nextId, pyStrip (r.postGetD "title" ""), false, s.now, s.now⟩ : Todo)
        ∈ (todo_create r s).store.objectsAll := by
  have hstore : (todo_create r s).store.todos
      = s.todos ++ [⟨s.nextId, pyStrip (r.postGetD "title" ""), false, s.now, s.now⟩] := by
    simp [todo_create, hm, h, Store.createTodo]
  refine ⟨hstore, ?_, ?_, by decide, rfl, ?_⟩
  · simp [todo_create, hm, h]
  · simp [todo_create, hm, h]
  · simp only [Store.objectsAll]
    rw [mem_sortByCreatedDesc, hstore]
    simp

/-- Claim C1 witness. -/
theorem create_inserts_w :
    (todo_create ⟨.post, [("title", "  Buy milk  ")]⟩ Store.empty).store.todos
        = Store.empty.todos
          ++ [⟨Store.empty.nextId,
               pyStrip ((⟨.post, [("title", "  Buy milk  ")]⟩ : Req).postGetD "title" ""),
               false, Store.empty.now, Store.empty.now⟩] ∧
    (todo_create ⟨.post, [("title", "  Buy milk  ")]⟩ Store.empty).resp
        = .redirect "todos:todo_list" ∧
    (todo_create ⟨.post, [("title", "  Buy milk  ")]⟩ Store.empty).notices
        = [.success "Todo created successfully!"] ∧
    strContains "Todo created successfully!" "created successfully" = true ∧
    (todo_list ⟨.post, [("title", "  Buy milk  ")]⟩
        (todo_create ⟨.post, [("title", "  Buy milk  ")]⟩ Store.empty).store).resp
        = .renderList
            ((todo_create ⟨.post, [("title", "  Buy milk  ")]⟩ Store.empty).store.objectsAll) ∧
    (⟨Store.empty.nextId,
      pyStrip ((⟨.post, [("title", "  Buy milk  ")]⟩ : Req).postGetD "title" ""),
      false, Store.empty.now, Store.empty.now⟩ : Todo)
        ∈ (todo_create ⟨.post, [("title", "  Buy milk  ")]⟩ Store.empty).store.objectsAll :=
  create_inserts Store.empty ⟨.post, [("title", "  Buy milk  ")]⟩ rfl (by decide)

/-- Claim C2: Toggle flips the completed flag of the addressed record and
queues a success notice whose wording follows the new state; applying Toggle
twice returns the flag to its original value. -/
theorem toggle_involution (s : Store) (r r' : Req) (pk : Nat) (t : Todo)
    (h : s.findById pk = some t) :
    ∃ t₁ t₂ : Todo,
      (todo_toggle r pk s).store.findById pk = some t₁ ∧
      t₁.completed = !t.completed ∧
      t₁.completed ≠ t.completed ∧
      (todo_toggle r pk s).notices = [.success (toggleMsg t₁.completed)] ∧
      (t₁.completed = true → strContains (toggleMsg t₁.completed) "completed" = true) ∧
      (t₁.completed = false → strContains (toggleMsg t₁.completed) "incomplete" = true) ∧
      (todo_toggle r' pk (todo_toggle r pk s).store).store.findById pk = some t₂ ∧
      t₂.completed = t.completed := by
  have h' : s.todos.find? (fun x => x.id = pk) = some t := h
  have htid : t.id = pk := by
    have h2 := List.find?_some h'
    simpa using h2
  have hsome : (s.findById pk).isSome = true := by rw [h]; rfl
  have h1 : (todo_toggle r pk s).store
      = s.saveTodo { t with completed := !t.completed } := by
    simp [todo_toggle, h]
  have hf1 : (s.saveTodo { t with completed := !t.completed }).findById pk
      = some ⟨t.id, t.title, !t.completed, t.created_at, s.now⟩ :=
    findById_saveTodo s pk { t with completed := !t.completed } htid hsome
  have hsome1 : ((s.saveTodo { t with completed := !t.completed }).findById pk).isSome
      = true := by rw [hf1]; rfl
  refine ⟨⟨t.id, t.title, !t.completed, t.created_at, s.now⟩,
          ⟨t.id, t.title, !(!t.completed), t.created_at, s.now + 1⟩,
          ?_, rfl, ?_, ?_, ?_, ?_, ?_, Bool.not_not t.completed⟩
  · rw [h1]; exact hf1
  · show (!t.completed) ≠ t.completed
    simp
  · simp [todo_toggle, h]
  · intro hb; rw [hb]; decide
  · intro hb; rw [hb]; decide
  · rw [h1]
    have h2 : (todo_toggle r' pk (s.saveTodo { t with completed := !t.completed })).store
        = (s.saveTodo { t with completed := !t.completed }).saveTodo
            { (⟨t.id, t.title, !t.completed, t.created_at, s.now⟩ : Todo) with
              completed := !(!t.completed) } := by
      simp [todo_toggle, hf1]
    rw [h2]
    exact findById_saveTodo (s.saveTodo { t with completed := !t.completed }) pk
      { (⟨t.id, t.title, !t.completed, t.created_at, s.now⟩ : Todo) with
        completed := !(!t.completed) } htid hsome1

/-- Claim C2 witness. -/
theorem toggle_involution_w :
    ∃ t₁ t₂ : Todo,
      (todo_toggle ⟨.get, []⟩ 1 ⟨[⟨1, "a", false, 0, 0⟩], 2, 1⟩).store.findById 1
          = some t₁ ∧
      t₁.completed = !(⟨1, "a", false, 0, 0⟩ : Todo).completed ∧
      t₁.completed ≠ (⟨1, "a", false, 0, 0⟩ : Todo).completed ∧
      (todo_toggle ⟨.get, []⟩ 1 ⟨[⟨1, "a", false, 0, 0⟩], 2, 1⟩).notices
          = [.success (toggleMsg t₁.completed)] ∧
      (t₁.completed = true → strContains (toggleMsg t₁.completed) "completed" = true) ∧
      (t₁.completed = false → strContains (toggleMsg t₁.completed) "incomplete" = true) ∧
      (todo_toggle ⟨.get, []⟩ 1
          (todo_toggle ⟨.get, []⟩ 1 ⟨[⟨1, "a", false, 0, 0⟩], 2, 1⟩).store).store.findById 1
          = some t₂ ∧
      t₂.completed = (⟨1, "a", false, 0, 0⟩ : Todo).completed :=
  toggle_involution ⟨[⟨1, "a", false, 0, 0⟩], 2, 1⟩ ⟨.get, []⟩ ⟨.get, []⟩ 1
    ⟨1, "a", false, 0, 0⟩ (by decide)

/-- Claim C3: an Update POST on an existing record with a non-empty stripped
title overwrites both fields: the title becomes the stripped submission and
the completed flag becomes true exactly when the form carries
`completed = "on"`; when the field is absent the flag is set to false. -/
theorem update_overwrites (s : Store) (r : Req) (pk : Nat) (t : Todo)
    (hm : r.method = .post)
    (h : s.findById pk = some t)
    (ht : pyStrip (r.postGetD "title" "") ≠ "") :
    (todo_update r pk s).store.findById pk
      = some ⟨t.id, pyStrip (r.postGetD "title" ""),
              r.postGet? "completed" == some "on", t.created_at, s.now⟩ ∧
    ((r.postGet? "completed" == some "on") = true ↔ r.postGet? "completed" = some "on") ∧
    (r.postGet? "completed" = none → (r.postGet? "completed" == some "on") = false) := by
  have h' : s.todos.find? (fun x => x.id = pk) = some t := h
  have htid : t.id = pk := by
    have h2 := List.find?_some h'
    simpa using h2
  have hsome : (s.findById pk).isSome = true := by rw [h]; rfl
  have h1 : (todo_update r pk s).store
      = s.saveTodo { t with title := pyStrip (r.postGetD "title" ""),
                            completed := r.postGet? "completed" == some "on" } := by
    simp [todo_update, h, hm, ht]
  refine ⟨?_, beq_iff_eq, ?_⟩
  · rw [h1]
    exact findById_saveTodo s pk
      { t with title := pyStrip (r.postGetD "title" ""),
               completed := r.postGet? "completed" == some "on" } htid hsome
  · intro hn; rw [hn]; rfl

/-- Claim C3 witness: the submitted form has no completed field, so the flag
is overwritten to false. -/
theorem update_overwrites_w :
    (todo_update ⟨.post, [("title", " x ")]⟩ 1 ⟨[⟨1, "a", true, 0, 0⟩], 2, 1⟩).store.findById 1
      = some ⟨(⟨1, "a", true, 0, 0⟩ : Todo).id,
              pyStrip ((⟨.post, [("title", " x ")]⟩ : Req).postGetD "title" ""),
              (⟨.post, [("title", " x ")]⟩ : Req).postGet? "completed" == some "on",
              (⟨1, "a", true, 0, 0⟩ : Todo).created_at,
              (⟨[⟨1, "a", true, 0, 0⟩], 2, 1⟩ : Store).now⟩ ∧
    (((⟨.post, [("title", " x ")]⟩ : Req).postGet? "completed" == some "on") = true
        ↔ (⟨.post, [("title", " x ")]⟩ : Req).postGet? "completed" = some "on") ∧
    ((⟨.post, [("title", " x ")]⟩ : Req).postGet? "completed" = none →
        ((⟨.post, [("title", " x ")]⟩ : Req).postGet? "completed" == some "on") = false) :=
  update_overwrites ⟨[⟨1, "a", true, 0, 0⟩], 2, 1⟩ ⟨.post, [("title", " x ")]⟩ 1
    ⟨1, "a", true, 0, 0⟩ rfl (by decide) (by decide)

/-- Claim C4: Update is atomic on validation failure: a POST on an existing
record whose title strips to the empty string changes no field of any record
(the whole store is unchanged), queues an error notice, and re-renders the
edit form with the record's current values. -/
theorem update_empty_title_atomic (s : Store) (r : Req) (pk : Nat) (t : Todo)
    (hm : r.method = .post)
    (h : s.findById pk = some t)
    (ht : pyStrip (r.postGetD "title" "") = "") :
    (todo_update r pk s).store = s ∧
    (todo_update r pk s).notices = [.error "Title cannot be empty!"] ∧
    (todo_update r pk s).resp = .renderForm "Edit Todo" (some t) := by
  refine ⟨?_, ?_, ?_⟩ <;> simp [todo_update, h, hm, ht]

/-- Claim C4 witness. -/
theorem update_empty_title_atomic_w :
    (todo_update ⟨.post, [("title", "   ")]⟩ 1 ⟨[⟨1, "a", true, 0, 0⟩], 2, 1⟩).store
        = ⟨[⟨1, "a", true, 0, 0⟩], 2, 1⟩ ∧
    (todo_update ⟨.post, [("title", "   ")]⟩ 1 ⟨[⟨1, "a", true, 0, 0⟩], 2, 1⟩).notices
        = [.error "Title cannot be empty!"] ∧
    (todo_update ⟨.post, [("title", "   ")]⟩ 1 ⟨[⟨1, "a", true, 0, 0⟩], 2, 1⟩).resp
        = .renderForm "Edit Todo" (some ⟨1, "a", true, 0, 0⟩) :=
  update_empty_title_atomic ⟨[⟨1, "a", true, 0, 0⟩], 2, 1⟩
    ⟨.post, [("title", "   ")]⟩ 1 ⟨1, "a", true, 0, 0⟩ rfl (by decide) (by decide)

/-- Claim C5: on an id with no record, Update, Delete and Toggle all yield the
404 outcome, queue no notice, and leave the store untouched, whatever the
request method. -/
theorem missing_id_yields_404 (s : Store) (r : Req) (pk : Nat)
    (h : s.findById pk = none) :
    (todo_update r pk s).resp = .notFound ∧
    (todo_update r pk s).store = s ∧
    (todo_update r pk s).notices = [] ∧
    (todo_delete r pk s).resp = .notFound ∧
    (todo_delete r pk s).store = s ∧
    (todo_delete r pk s).notices = [] ∧
    (todo_toggle r pk s).resp = .notFound ∧
    (todo_toggle r pk s).store = s ∧
    (todo_toggle r pk s).notices = [] ∧
    Resp.status .notFound = 404 := by
  refine ⟨?_, ?_, ?_, ?_, ?_, ?_, ?_, ?_, ?_, rfl⟩ <;>
    simp [todo_update, todo_delete, todo_toggle, h]

/-- Claim C5 witness. -/
theorem missing_id_yields_404_w :
    (todo_update ⟨.post, []⟩ 7 Store.empty).resp = .notFound ∧
    (todo_update ⟨.post, []⟩ 7 Store.empty).store = Store.empty ∧
    (todo_update ⟨.post, []⟩ 7 Store.empty).notices = [] ∧
    (todo_delete ⟨.post, []⟩ 7 Store.empty).resp = .notFound ∧
    (todo_delete ⟨.post, []⟩ 7 Store.empty).store = Store.empty ∧
    (todo_delete ⟨.post, []⟩ 7 Store.empty).notices = [] ∧
    (todo_toggle ⟨.post, []⟩ 7 Store.empty).resp = .notFound ∧
    (todo_toggle ⟨.post, []⟩ 7 Store.empty).store = Store.empty ∧
    (todo_toggle ⟨.post, []⟩ 7 Store.empty).notices = [] ∧
    Resp.status .notFound = 404 :=
  missing_id_yields_404 Store.empty ⟨.post, []⟩ 7 (by decide)

/-- Claim C6: a Create POST whose title strips to empty inserts nothing, queues
an error notice whose text contains "cannot be empty", and re-renders the
create form with status 200 rather than redirecting. -/
theorem create_empty_title_rejected (s : Store) (r : Req)
    (hm : r.method = .post)
    (h : pyStrip (r.postGetD "title" "") = "") :
    (todo_create r s).store = s ∧
    (todo_create r s).notices = [.error "Title cannot be empty!"] ∧
    strContains "Title cannot be empty!" "cannot be empty" = true ∧
    (todo_create r s).resp = .renderForm "Create Todo" none ∧
    ((todo_create r s).resp).status = 200 := by
  refine ⟨?_, ?_, by decide, ?_, ?_⟩ <;> simp [todo_create, hm, h, Resp.status]

/-- Claim C6 witness. -/
theorem create_empty_title_rejected_w :
    (todo_create ⟨.post, [("title", "   ")]⟩ Store.empty).store = Store.empty ∧
    (todo_create ⟨.post, [("title", "   ")]⟩ Store.empty).notices
        = [.error "Title cannot be empty!"] ∧
    strContains "Title cannot be empty!" "cannot be empty" = true ∧
    (todo_create ⟨.post, [("title", "   ")]⟩ Store.empty).resp
        = .renderForm "Create Todo" none ∧
    ((todo_create ⟨.post, [("title", "   ")]⟩ Store.empty).resp).status = 200 :=
  create_empty_title_rejected Store.empty ⟨.post, [("title", "   ")]⟩ rfl (by decide)

/-- Store left behind by a Create POST submitting the given raw title. -/
def afterCreate (x : String) (s : Store) : Store :=
  (todo_create ⟨.post, [("title", x)]⟩ s).store

/-- Claim C7: List returns all records newest first: with records created in
order A, B, C, List renders [C, B, A]. -/
theorem list_newest_first (a b c : String)
    (ha : pyStrip a ≠ "") (hb : pyStrip b ≠ "") (hc : pyStrip c ≠ "") :
    (todo_list ⟨.get, []⟩ (afterCreate c (afterCreate b (afterCreate a Store.empty)))).resp
      = .renderList
          [⟨3, pyStrip c, false, 2, 2⟩, ⟨2, pyStrip b, false, 1, 1⟩,
           ⟨1, pyStrip a, false, 0, 0⟩] := by
  have e1 : afterCreate a Store.empty = ⟨[⟨1, pyStrip a, false, 0, 0⟩], 2, 1⟩ := by
    simp [afterCreate, todo_create, Req.postGetD, Req.postGet?, formGet?, ha,
      Store.createTodo, Store.empty]
  have e2 : afterCreate b ⟨[⟨1, pyStrip a, false, 0, 0⟩], 2, 1⟩
      = ⟨[⟨1, pyStrip a, false, 0, 0⟩, ⟨2, pyStrip b, false, 1, 1⟩], 3, 2⟩ := by
    simp [afterCreate, todo_create, Req.postGetD, Req.postGet?, formGet?, hb,
      Store.createTodo]
  have e3 : afterCreate c ⟨[⟨1, pyStrip a, false, 0, 0⟩, ⟨2, pyStrip b, false, 1, 1⟩], 3, 2⟩
      = ⟨[⟨1, pyStrip a, false, 0, 0⟩, ⟨2, pyStrip b, false, 1, 1⟩,
          ⟨3, pyStrip c, false, 2, 2⟩], 4, 3⟩ := by
    simp [afterCreate, todo_create, Req.postGetD, Req.postGet?, formGet?, hc,
      Store.createTodo]
  rw [e1, e2, e3]
  simp [todo_list, Store.objectsAll, sortByCreatedDesc, insertByCreatedDesc]

/-- Claim C7 witness. -/
theorem list_newest_first_w :
    (todo_list ⟨.get, []⟩ (afterCreate "C" (afterCreate "B" (afterCreate "A" Store.empty)))).resp
      = .renderList
          [⟨3, pyStrip "C", false, 2, 2⟩, ⟨2, pyStrip "B", false, 1, 1⟩,
           ⟨1, pyStrip "A", false, 0, 0⟩] :=
  list_newest_first "A" "B" "C" (by decide) (by decide) (by decide)

/-- Saving a record with a valid title preserves the store title invariant. -/
theorem titlesOK_saveTodo (s : Store) (u : Todo) (hs : s.titlesOK)
    (hu : validTitle u.title) : (s.saveTodo u).titlesOK := by
  intro x hx
  have hx' : x ∈ s.todos.map
      (fun v => if v.id = u.id then { u with updated_at := s.now } else v) := hx
  rcases List.mem_map.mp hx' with ⟨y, hy, hxy⟩
  by_cases hid : y.id = u.id
  · rw [← hxy, if_pos hid]
    exact hu
  · rw [← hxy, if_neg hid]
    exact hs y hy

/-- Claim C8: every handler preserves the store invariant that no stored
title is empty or whitespace-only. -/
theorem title_invariant_preserved (s : Store) (r : Req) (pk : Nat)
    (hs : s.titlesOK) :
    (todo_list r s).store.titlesOK ∧
    (todo_create r s).store.titlesOK ∧
    (todo_update r pk s).store.titlesOK ∧
    (todo_delete r pk s).store.titlesOK ∧
    (todo_toggle r pk s).store.titlesOK := by
  refine ⟨hs, ?_, ?_, ?_, ?_⟩
  · by_cases hm : r.method = .post
    · by_cases ht : pyStrip (r.postGetD "title" "") = ""
      · simpa [todo_create, hm, ht] using hs
      · intro x hx
        have hx' : x ∈ s.todos ++ [⟨s.nextId, pyStrip (r.postGetD "title" ""),
            false, s.now, s.now⟩] := by
          simpa [todo_create, hm, ht, Store.createTodo] using hx
        rcases List.mem_append.mp hx' with h1 | h1
        · exact hs x h1
        · rw [List.mem_singleton.mp h1]
          exact validTitle_pyStrip _ ht
    · simpa [todo_create, hm] using hs
  · cases hfind : s.findById pk with
    | none => simpa [todo_update, hfind] using hs
    | some t =>
      by_cases hm : r.method = .post
      · by_cases ht : pyStrip (r.postGetD "title" "") = ""
        · simpa [todo_update, hfind, hm, ht] using hs
        · have hst : (todo_update r pk s).store
              = s.saveTodo { t with title := pyStrip (r.postGetD "title" ""),
                                    completed := r.postGet? "completed" == some "on" } := by
            simp [todo_update, hfind, hm, ht]
          rw [hst]
          exact titlesOK_saveTodo s _ hs (validTitle_pyStrip _ ht)
      · simpa [todo_update, hfind, hm] using hs
  · cases hfind : s.findById pk with
    | none => simpa [todo_delete, hfind] using hs
    | some t =>
      by_cases hm : r.method = .post
      · intro x hx
        have hx' : x ∈ s.todos.filter (fun v => v.id ≠ pk) := by
          simpa [todo_delete, hfind, hm, Store.deleteTodo] using hx
        exact hs x (List.mem_of_mem_filter hx')
      · simpa [todo_delete, hfind, hm] using hs
  · cases hfind : s.findById pk with
    | none => simpa [todo_toggle, hfind] using hs
    | some t =>
      have hmem : t ∈ s.todos := List.mem_of_find?_eq_some hfind
      have hst : (todo_toggle r pk s).store
          = s.saveTodo { t with completed := !t.completed } := by
        simp [todo_toggle, hfind]
      rw [hst]
      exact titlesOK_saveTodo s _ hs (hs t hmem)

/-- Claim C8 witness. -/
theorem title_invariant_preserved_w :
    (todo_list ⟨.post, [("title", "  hi  ")]⟩ ⟨[⟨1, "a", false, 0, 0⟩], 2, 1⟩).store.titlesOK ∧
    (todo_create ⟨.post, [("title", "  hi  ")]⟩ ⟨[⟨1, "a", false, 0, 0⟩], 2, 1⟩).store.titlesOK ∧
    (todo_update ⟨.post, [("title", "  hi  ")]⟩ 1 ⟨[⟨1, "a", false, 0, 0⟩], 2, 1⟩).store.titlesOK ∧
    (todo_delete ⟨.post, [("title", "  hi  ")]⟩ 1 ⟨[⟨1, "a", false, 0, 0⟩], 2, 1⟩).store.titlesOK ∧
    (todo_toggle ⟨.post, [("title", "  hi  ")]⟩ 1 ⟨[⟨1, "a", false, 0, 0⟩], 2, 1⟩).store.titlesOK :=
  title_invariant_preserved ⟨[⟨1, "a", false, 0, 0⟩], 2, 1⟩ ⟨.post, [("title", "  hi  ")]⟩ 1
    (by decide)

/-- Claim C9: non-emptiness of the stripped title is the only runtime check:
Create inserts, and Create and Update redirect with success, exactly when the
stripped title is non-empty — no condition on its length is tested. -/
theorem only_nonemptiness_validated (s : Store) (r : Req) (pk : Nat) (t : Todo)
    (hm : r.method = .post) (h : s.findById pk = some t) :
    ((todo_create r s).store.todos.length = s.todos.length + 1
        ↔ pyStrip (r.postGetD "title" "") ≠ "") ∧
    ((todo_create r s).resp = .redirect "todos:todo_list"
        ↔ pyStrip (r.postGetD "title" "") ≠ "") ∧
    ((todo_update r pk s).resp = .redirect "todos:todo_list"
        ↔ pyStrip (r.postGetD "title" "") ≠ "") := by
  by_cases ht : pyStrip (r.postGetD "title" "") = ""
  · refine ⟨?_, ?_, ?_⟩ <;> simp [todo_create, todo_update, hm, h, ht]
  · refine ⟨?_, ?_, ?_⟩ <;> simp [todo_create, todo_update, hm, h, ht, Store.createTodo]

set_option maxRecDepth 8000 in
/-- Claim C9 witness: a 201-character title passes, so no 200-character limit
is enforced at runtime. -/
theorem only_nonemptiness_validated_w :
    200 < (String.mk (List.replicate 201 'a')).length ∧
    pyStrip ((⟨.post, [("title", String.mk (List.replicate 201 'a'))]⟩ : Req).postGetD
        "title" "") ≠ "" ∧
    (((todo_create ⟨.post, [("title", String.mk (List.replicate 201 'a'))]⟩
          ⟨[⟨1, "a", false, 0, 0⟩], 2, 1⟩).store.todos.length
        = (⟨[⟨1, "a", false, 0, 0⟩], 2, 1⟩ : Store).todos.length + 1
        ↔ pyStrip ((⟨.post, [("title", String.mk (List.replicate 201 'a'))]⟩ : Req).postGetD
            "title" "") ≠ "") ∧
     ((todo_create ⟨.post, [("title", String.mk (List.replicate 201 'a'))]⟩
          ⟨[⟨1, "a", false, 0, 0⟩], 2, 1⟩).resp = .redirect "todos:todo_list"
        ↔ pyStrip ((⟨.post, [("title", String.mk (List.replicate 201 'a'))]⟩ : Req).postGetD
            "title" "") ≠ "") ∧
     ((todo_update ⟨.post, [("title", String.mk (List.replicate 201 'a'))]⟩ 1
          ⟨[⟨1, "a", false, 0, 0⟩], 2, 1⟩).resp = .redirect "todos:todo_list"
        ↔ pyStrip ((⟨.post, [("title", String.mk (List.replicate 201 'a'))]⟩ : Req).postGetD
            "title" "") ≠ "")) :=
  ⟨by decide, by decide,
   only_nonemptiness_validated ⟨[⟨1, "a", false, 0, 0⟩], 2, 1⟩
     ⟨.post, [("title", String.mk (List.replicate 201 'a'))]⟩ 1
     ⟨1, "a", false, 0, 0⟩ rfl (by decide)⟩

/-- Claim C10: frame property of Toggle: with distinct primary keys, the
addressed row keeps its id, title and creation time, only its completed flag
and `updated_at` change, and every other row (and the id counter) is
untouched, position by position. -/
theorem toggle_frame (s : Store) (r : Req) (pk : Nat) (t : Todo)
    (hnd : (s.todos.map Todo.id).Nodup)
    (h : s.findById pk = some t) :
    (todo_toggle r pk s).store.todos.length = s.todos.length ∧
    (todo_toggle r pk s).store.nextId = s.nextId ∧
    (∀ (i : Nat) (u : Todo), s.todos[i]? = some u →
      (u.id ≠ pk → (todo_toggle r pk s).store.todos[i]? = some u) ∧
      (u.id = pk → (todo_toggle r pk s).store.todos[i]?
          = some ⟨u.id, u.title, !u.completed, u.created_at, s.now⟩)) := by
  have h' : s.todos.find? (fun x => x.id = pk) = some t := h
  have htid : t.id = pk := by
    have h2 := List.find?_some h'
    simpa using h2
  have h1 : (todo_toggle r pk s).store
      = s.saveTodo { t with completed := !t.completed } := by
    simp [todo_toggle, h]
  rw [h1]
  refine ⟨by simp [Store.saveTodo], rfl, ?_⟩
  intro i u hu
  have hmap : (s.saveTodo { t with completed := !t.completed }).todos[i]?
      = some (if u.id = t.id then
          { t with completed := !t.completed, updated_at := s.now } else u) := by
    show (s.todos.map _)[i]? = _
    rw [List.getElem?_map, hu]
    rfl
  constructor
  · intro hne
    have hcond : ¬ u.id = t.id := by rw [htid]; exact hne
    rw [hmap, if_neg hcond]
  · intro heq
    have humem : u ∈ s.todos := List.getElem?_mem hu
    have hut : u = t := find?_eq_of_nodup s.todos pk t hnd h' u humem heq
    have hcond : u.id = t.id := by rw [hut]
    rw [hmap, if_pos hcond, hut]

/-- Claim C10 witness. -/
theorem toggle_frame_w :
    (todo_toggle ⟨.get, []⟩ 1 ⟨[⟨1, "a", false, 0, 0⟩, ⟨2, "b", true, 1, 1⟩], 3, 2⟩).store.todos.length
        = (⟨[⟨1, "a", false, 0, 0⟩, ⟨2, "b", true, 1, 1⟩], 3, 2⟩ : Store).todos.length ∧
    (todo_toggle ⟨.get, []⟩ 1 ⟨[⟨1, "a", false, 0, 0⟩, ⟨2, "b", true, 1, 1⟩], 3, 2⟩).store.nextId
        = (⟨[⟨1, "a", false, 0, 0⟩, ⟨2, "b", true, 1, 1⟩], 3, 2⟩ : Store).nextId ∧
    (∀ (i : Nat) (u : Todo), (⟨[⟨1, "a", false, 0, 0⟩, ⟨2, "b", true, 1, 1⟩], 3, 2⟩ : Store).todos[i]? = some u →
      (u.id ≠ 1 →
        (todo_toggle ⟨.get, []⟩ 1
            ⟨[⟨1, "a", false, 0, 0⟩, ⟨2, "b", true, 1, 1⟩], 3, 2⟩).store.todos[i]? = some u) ∧
      (u.id = 1 →
        (todo_toggle ⟨.get, []⟩ 1
            ⟨[⟨1, "a", false, 0, 0⟩, ⟨2, "b", true, 1, 1⟩], 3, 2⟩).store.todos[i]?
          = some ⟨u.id, u.title, !u.completed, u.created_at,
              (⟨[⟨1, "a", false, 0, 0⟩, ⟨2, "b", true, 1, 1⟩], 3, 2⟩ : Store).now⟩)) :=
  toggle_frame ⟨[⟨1, "a", false, 0, 0⟩, ⟨2, "b", true, 1, 1⟩], 3, 2⟩ ⟨.get, []⟩ 1
    ⟨1, "a", false, 0, 0⟩ (by decide) (by decide)

end TodoApp
